import Mathlib

/-!
Shallow embedding of the deployment orchestrator (the repository's bash
deployment script).  The script's functions (`check_prerequisites`,
`build_and_push_images`, `deploy_infrastructure`, `deploy_application`,
`run_health_checks`, `get_deployment_info`, `main`, and the subcommand
dispatch) are translated into pure Lean functions that thread an explicit
state: the control-plane state (stack and container-registry repositories),
the list of messages the script prints, and the list of requests it issues
to external systems.  `set -e` is modelled by the `Flow` type: once a step
exits, every subsequent step is skipped and the exit code is the script's
exit code.  The external control plane (AWS CloudFormation / ECR / ECS) is
not code of this repository; its responses are modelled by the `aws*`
functions below, following the behaviour the spec attributes to it, and
the update-stack response is additionally a parameter of
`deploy_infrastructure_with` so that properties about the script's error
classification can quantify over arbitrary response texts.
-/

namespace Deploy

/-- Stack states, as in the spec's data model (minus `absent`, which is
`Option.none` of the plane's `stack` field). -/
inductive StackStatus where
  | creating
  | updating
  | createComplete
  | updateComplete
  | createFailed
  | updateFailed
deriving DecidableEq, Repr

/-- Whether a stack status is one of the terminal `*-complete` states. -/
def StackStatus.isComplete : StackStatus → Bool
  | .createComplete => true
  | .updateComplete => true
  | _ => false

/-- The parameter set the script passes to the topology template: exactly the
four `ParameterKey=...` pairs of the `create-stack` / `update-stack` calls. -/
structure Params where
  environment : String
  databasePassword : String
  backendRepositoryUri : String
  frontendRepositoryUri : String
deriving DecidableEq, Repr

/-- The named outputs the script reads back from the stack
(`ECSClusterName`, `BackendServiceName`, `FrontendServiceName`,
`ALBDNSName`). -/
structure Outputs where
  clusterName : String
  backendServiceName : String
  frontendServiceName : String
  albDnsName : String
deriving DecidableEq, Repr

/-- A provisioned stack as held by the external control plane. -/
structure Stack where
  status : StackStatus
  params : Params
  outs : Outputs
deriving DecidableEq, Repr

/-- State of the external control plane: the (single, named) stack, and the
set of container-registry repositories that exist. -/
structure PlaneState where
  stack : Option Stack
  repos : List String
deriving DecidableEq, Repr

/-- Message severity, matching the script's print helpers. -/
inductive Level where
  | info
  | warning
  | error
deriving DecidableEq, Repr

/-- A message printed by the script (`print_status` / `print_warning` /
`print_error` / plain `echo`). -/
structure Msg where
  level : Level
  text : String
deriving DecidableEq, Repr

/-- A request the script issues to an external system.  Requests that only
read state and requests that mutate it are both recorded, so that claims
about "no request issued" and "no mutation performed" can be stated over
the trace. -/
inductive Req where
  | stsGetCallerIdentity
  | describeRepos (name : String)
  | createRepo (name : String)
  | ecrLogin
  | dockerBuild (component : String)
  | dockerTag (component : String)
  | dockerPush (repo : String)
  | describeStacks
  | createStack (p : Params)
  | updateStack (p : Params)
  | waitCreate
  | waitUpdate
  | updateService (cluster service : String)
  | curlGet (url : String)
  | sleepSec (n : Nat)
deriving DecidableEq, Repr

/-- Requests that mutate external state: pushing or building images,
creating repositories, submitting stack create/update, or replacing
service tasks. -/
def Req.isMutating : Req → Bool
  | .createRepo _ => true
  | .dockerBuild _ => true
  | .dockerPush _ => true
  | .createStack _ => true
  | .updateStack _ => true
  | .updateService _ _ => true
  | _ => false

/-- Running state of one script invocation: plane state plus the printed
messages and issued requests so far. -/
structure St where
  plane : PlaneState
  msgs : List Msg
  reqs : List Req
deriving DecidableEq, Repr

def St.info (s : St) (t : String) : St :=
  { s with msgs := s.msgs ++ [⟨Level.info, t⟩] }

def St.warn (s : St) (t : String) : St :=
  { s with msgs := s.msgs ++ [⟨Level.warning, t⟩] }

def St.err (s : St) (t : String) : St :=
  { s with msgs := s.msgs ++ [⟨Level.error, t⟩] }

def St.req (s : St) (r : Req) : St :=
  { s with reqs := s.reqs ++ [r] }

/-- Control flow under `set -e`: either the script continues with state `s`,
or it has exited with a code (every later step is skipped). -/
inductive Flow where
  | cont (s : St)
  | exited (code : Nat) (s : St)
deriving DecidableEq, Repr

/-- The process exit code: 0 when the script ran to the end. -/
def Flow.exitCode : Flow → Nat
  | .cont _ => 0
  | .exited c _ => c

/-- The final state carried by a flow, whether or not it exited. -/
def Flow.st : Flow → St
  | .cont s => s
  | .exited _ s => s

/-- Sequencing under `set -e`: a step after an exit never runs. -/
def andThen : Flow → (St → Flow) → Flow
  | .cont s, g => g s
  | .exited c s, _ => .exited c s

/-- Append a final status message on the success path only. -/
def withDone (t : String) : Flow → Flow
  | .cont s => .cont (s.info t)
  | .exited c s => .exited c s

/-- Whether `needle` occurs at the start of `hay` (character lists). -/
def charsStart : List Char → List Char → Bool
  | [], _ => true
  | _ :: _, [] => false
  | a :: as, b :: bs => a == b && charsStart as bs

/-- Whether `needle` occurs contiguously anywhere in the haystack. -/
def charsHas (needle : List Char) : List Char → Bool
  | [] => needle.isEmpty
  | c :: rest => charsStart needle (c :: rest) || charsHas needle rest

/-- Bash `[[ $hay == *"$needle"* ]]`: substring containment. -/
def strHas (hay needle : String) : Bool :=
  charsHas needle.data hay.data

/-- The environment of one invocation: which tools are installed, the
environment variables, the control-plane state, and the outcomes the
external collaborators (registry login, docker, ECS service replacement,
health endpoints) would produce if asked.  These outcome fields are the
test doubles the spec's testable properties talk about. -/
structure Env where
  awsInstalled : Bool
  dockerInstalled : Bool
  databasePassword : String
  environmentName : String
  awsRegion : String
  accountIdPreset : Option String
  stsOk : Bool
  stsAccountId : String
  ecrLoginOk : Bool
  dockerStepsOk : Bool
  plane : PlaneState
  templateOuts : Outputs
  backendServiceAccepted : Bool
  frontendServiceAccepted : Bool
  healthFrontendOk : Bool
  healthBackendOk : Bool
deriving DecidableEq, Repr

/-- The effective AWS account id: the preset `AWS_ACCOUNT_ID` variable, or
the value returned by the identity lookup. -/
def Env.accountId (e : Env) : String :=
  match e.accountIdPreset with
  | some a => a
  | none => e.stsAccountId

/-- The parameter set the script submits, built exactly as in
`deploy_infrastructure`. -/
def Env.effectiveParams (e : Env) : Params :=
  { environment := e.environmentName
    databasePassword := e.databasePassword
    backendRepositoryUri :=
      e.accountId ++ ".dkr.ecr." ++ e.awsRegion ++ ".amazonaws.com/blog-backend"
    frontendRepositoryUri :=
      e.accountId ++ ".dkr.ecr." ++ e.awsRegion ++ ".amazonaws.com/blog-frontend" }

/-- The initial running state of an invocation. -/
def St.init (e : Env) : St :=
  { plane := e.plane, msgs := [], reqs := [] }

/-- Control-plane response text when an update changes nothing (the spec's
"no changes to apply" outcome, worded as the control plane words it). -/
def noUpdatesErrText : String :=
  "An error occurred (ValidationError) when calling the UpdateStack operation: No updates are to be performed."

/-- Control-plane response text when the stack is in an in-progress or
failed state and cannot be updated. -/
def stackBusyErrText : String :=
  "An error occurred (ValidationError) when calling the UpdateStack operation: the stack is in an in progress or failed state and can not be updated"

/-- Control-plane response text when the stack does not exist. -/
def stackAbsentErrText : String :=
  "An error occurred (ValidationError) when calling the UpdateStack operation: the stack does not exist"

/-- Control-plane response text when the update is accepted. -/
def updateAcceptedText : String :=
  "StackId arn aws cloudformation stack blog-app-stack"

/-- Model of the external control plane's `update-stack` call, following the
behaviour the spec attributes to it: a stack not in a terminal complete
state rejects the update; an update with an identical parameter set is
refused with the "No updates are to be performed" text and mutates
nothing; otherwise the update is accepted and the stack enters the
`updating` state with the new parameters. -/
def awsUpdateStack (ps : PlaneState) (p : Params) : String × PlaneState :=
  match ps.stack with
  | none => (stackAbsentErrText, ps)
  | some st =>
    if st.status.isComplete then
      if st.params = p then (noUpdatesErrText, ps)
      else (updateAcceptedText,
        { ps with stack := some { st with status := StackStatus.updating, params := p } })
    else (stackBusyErrText, ps)

/-- Model of `aws cloudformation wait stack-update-complete`: succeeds when
the stack is updating (driving it to `update-complete`) or already
`update-complete`; fails otherwise. -/
def awsWaitUpdate (ps : PlaneState) : Bool × PlaneState :=
  match ps.stack with
  | none => (false, ps)
  | some st =>
    match st.status with
    | .updating =>
      (true, { ps with stack := some { st with status := StackStatus.updateComplete } })
    | .updateComplete => (true, ps)
    | _ => (false, ps)

/-- Model of `aws cloudformation wait stack-create-complete`. -/
def awsWaitCreate (ps : PlaneState) : Bool × PlaneState :=
  match ps.stack with
  | none => (false, ps)
  | some st =>
    match st.status with
    | .creating =>
      (true, { ps with stack := some { st with status := StackStatus.createComplete } })
    | .createComplete => (true, ps)
    | _ => (false, ps)

/-- Embedding of `check_prerequisites`: checks the AWS CLI, docker, the
`DATABASE_PASSWORD` variable, and resolves the account id (via the
identity lookup when `AWS_ACCOUNT_ID` is unset), exiting 1 at the first
failure. -/
def check_prerequisites (e : Env) (s : St) : Flow :=
  let s := s.info "Checking prerequisites..."
  if e.awsInstalled then
    if e.dockerInstalled then
      if e.databasePassword = "" then
        .exited 1 (s.err "DATABASE_PASSWORD environment variable is not set.")
      else
        match e.accountIdPreset with
        | some _ => .cont (s.info "Prerequisites check passed.")
        | none =>
          let s := s.info "AWS_ACCOUNT_ID not set. Attempting to retrieve from AWS CLI..."
          let s := s.req Req.stsGetCallerIdentity
          if e.stsOk then
            if e.stsAccountId = "" then
              .exited 1 (s.err "Could not retrieve AWS account ID. Please set AWS_ACCOUNT_ID environment variable.")
            else
              .cont (((s.info ("AWS account ID: " ++ e.stsAccountId))).info "Prerequisites check passed.")
          else
            .exited 1 s
    else
      .exited 1 (s.err "Docker is not installed. Please install it first.")
  else
    .exited 1 (s.err "AWS CLI is not installed. Please install it first.")

/-- Embedding of the `describe-repositories || create-repository` pattern of
`build_and_push_images`: the describe call is always issued; the create
call is issued only when the repository is absent, and then the repository
comes to exist. -/
def ensureRepo (name : String) (s : St) : St :=
  let s := s.req (Req.describeRepos name)
  if s.plane.repos.contains name then s
  else
    let s := s.req (Req.createRepo name)
    { s with plane := { s.plane with repos := name :: s.plane.repos } }

/-- Embedding of `build_and_push_images`: ensure both registry
repositories, log in to the registry, then build, tag and push both
images.  Registry login failure or a docker failure aborts (exit 1 under
`set -e`). -/
def build_and_push_images (e : Env) (s : St) : Flow :=
  let s := s.info "Building and pushing Docker images..."
  let s := s.info "Creating ECR repositories if they do not exist..."
  let s := ensureRepo "blog-backend" s
  let s := ensureRepo "blog-frontend" s
  let s := s.info "Logging in to ECR..."
  let s := s.req Req.ecrLogin
  if e.ecrLoginOk then
    let s := (s.info "Building backend image...").req (Req.dockerBuild "backend")
    if e.dockerStepsOk then
      let s := (s.info "Building frontend image...").req (Req.dockerBuild "frontend")
      let s := (s.info "Tagging and pushing backend image...").req (Req.dockerTag "backend")
      let s := s.req (Req.dockerPush "blog-backend")
      let s := (s.info "Tagging and pushing frontend image...").req (Req.dockerTag "frontend")
      let s := s.req (Req.dockerPush "blog-frontend")
      .cont (s.info "Docker images built and pushed successfully.")
    else
      .exited 1 s
  else
    .exited 1 s

/-- Embedding of `deploy_infrastructure`, parameterized by the control
plane's update-stack behaviour so that the script's classification of
arbitrary response texts can be studied.  The existence check is the
`describe-stacks` guard; when the stack exists, the update response is
classified by substring: the "No updates are to be performed" marker is
success, a text containing "error" aborts with exit 1, anything else
falls through to the wait. -/
def deploy_infrastructure_with (upd : PlaneState → Params → String × PlaneState)
    (e : Env) (s : St) : Flow :=
  let s := s.info "Deploying infrastructure using CloudFormation..."
  let p := e.effectiveParams
  let s := s.req Req.describeStacks
  match s.plane.stack with
  | some _ =>
    let s := s.info "Stack exists. Updating..."
    let s := s.req (Req.updateStack p)
    let r := upd s.plane p
    let s := { s with plane := r.2 }
    if strHas r.1 "No updates are to be performed" then
      withDone "Infrastructure deployment completed."
        (.cont (s.info "No updates are to be performed on the stack."))
    else if strHas r.1 "error" then
      .exited 1 (s.err ("Failed to update CloudFormation stack: " ++ r.1))
    else
      let s := s.info "Waiting for stack update to complete..."
      let s := s.req Req.waitUpdate
      let w := awsWaitUpdate s.plane
      let s := { s with plane := w.2 }
      if w.1 then withDone "Infrastructure deployment completed." (.cont s)
      else .exited 1 s
  | none =>
    let s := s.info "Stack does not exist. Creating..."
    let s := s.req (Req.createStack p)
    let s := { s with plane := { s.plane with
      stack := some { status := StackStatus.creating, params := p, outs := e.templateOuts } } }
    let s := s.info "Waiting for stack creation to complete..."
    let s := s.req Req.waitCreate
    let w := awsWaitCreate s.plane
    let s := { s with plane := w.2 }
    if w.1 then withDone "Infrastructure deployment completed." (.cont s)
    else .exited 1 s

/-- `deploy_infrastructure` against the modelled control plane. -/
def deploy_infrastructure (e : Env) (s : St) : Flow :=
  deploy_infrastructure_with awsUpdateStack e s

/-- Embedding of `deploy_application`: read cluster and service names from
the stack outputs (three `describe-stacks` queries; a missing stack makes
them fail and `set -e` aborts), then issue the two `update-service`
replacement requests.  A rejected request aborts immediately under
`set -e`, with no script-printed message. -/
def deploy_application (e : Env) (s : St) : Flow :=
  let s := s.info "Deploying application..."
  let s := ((s.req Req.describeStacks).req Req.describeStacks).req Req.describeStacks
  match s.plane.stack with
  | none => .exited 1 s
  | some st =>
    let s := s.req (Req.updateService st.outs.clusterName st.outs.backendServiceName)
    if e.backendServiceAccepted then
      let s := s.req (Req.updateService st.outs.clusterName st.outs.frontendServiceName)
      if e.frontendServiceAccepted then
        .cont (s.info "Application deployment completed.")
      else
        .exited 1 s
    else
      .exited 1 s

/-- Embedding of `run_health_checks`: read the entry-point address, sleep a
fixed 120 seconds, then probe each of the two health paths exactly once;
a failing probe only prints a warning. -/
def run_health_checks (e : Env) (s : St) : Flow :=
  let s := s.info "Running health checks..."
  let s := s.req Req.describeStacks
  match s.plane.stack with
  | none => .exited 1 s
  | some st =>
    let alb := st.outs.albDnsName
    let s := s.info "Waiting for services to be ready (2 minutes)..."
    let s := s.req (Req.sleepSec 120)
    let s := s.info "Checking frontend health..."
    let s := s.req (Req.curlGet ("http://" ++ alb ++ "/health"))
    let s :=
      if e.healthFrontendOk then s.info "Frontend health check passed."
      else s.warn "Frontend health check failed. The application might still be starting up."
    let s := s.info "Checking backend health..."
    let s := s.req (Req.curlGet ("http://" ++ alb ++ "/api/health"))
    let s :=
      if e.healthBackendOk then s.info "Backend health check passed."
      else s.warn "Backend health check failed. The API might still be starting up."
    .cont s

/-- Embedding of `get_deployment_info`: read the entry-point address and
print the deployment summary. -/
def get_deployment_info (e : Env) (s : St) : Flow :=
  let s := s.info "Getting deployment information..."
  let s := s.req Req.describeStacks
  match s.plane.stack with
  | none => .exited 1 s
  | some st =>
    let s := s.info "DEPLOYMENT COMPLETED SUCCESSFULLY"
    let s := s.info ("Application URL: http://" ++ st.outs.albDnsName)
    let s := s.info ("API Documentation: http://" ++ st.outs.albDnsName ++ "/docs")
    let s := s.info ("Environment: " ++ e.environmentName)
    .cont (s.info ("Region: " ++ e.awsRegion))

/-- Embedding of `main`: the full pipeline, each stage aborting all later
ones on exit. -/
def main (e : Env) (s : St) : Flow :=
  andThen (check_prerequisites e (s.info "Starting deployment process..."))
    (fun s => andThen (build_and_push_images e s)
      (fun s => andThen (deploy_infrastructure e s)
        (fun s => andThen (deploy_application e s)
          (fun s => andThen (run_health_checks e s)
            (fun s => withDone "Deployment completed successfully!"
              (get_deployment_info e s))))))

/-- Embedding of the subcommand dispatch (`case "${1:-deploy}" in ...`):
a missing first argument defaults to `deploy`; an unknown subcommand
prints usage and exits 1. -/
def runScript (arg : Option String) (e : Env) : Flow :=
  let s := St.init e
  match arg.getD "deploy" with
  | "deploy" => main e s
  | "build" => andThen (check_prerequisites e s) (build_and_push_images e)
  | "infrastructure" => andThen (check_prerequisites e s) (deploy_infrastructure e)
  | "application" => andThen (check_prerequisites e s) (deploy_application e)
  | "health" => andThen (check_prerequisites e s) (run_health_checks e)
  | "info" => andThen (check_prerequisites e s) (get_deployment_info e)
  | _ => .exited 1 (s.info "Usage: deploy build infrastructure application health info")

/-! Basic simplification lemmas about the state operations. -/

@[simp]
theorem St.plane_info (s : St) (t : String) : (s.info t).plane = s.plane := rfl

@[simp]
theorem St.plane_warn (s : St) (t : String) : (s.warn t).plane = s.plane := rfl

@[simp]
theorem St.plane_err (s : St) (t : String) : (s.err t).plane = s.plane := rfl

@[simp]
theorem St.plane_req (s : St) (r : Req) : (s.req r).plane = s.plane := rfl

@[simp]
theorem St.msgs_info (s : St) (t : String) :
    (s.info t).msgs = s.msgs ++ [⟨Level.info, t⟩] := rfl

@[simp]
theorem St.msgs_warn (s : St) (t : String) :
    (s.warn t).msgs = s.msgs ++ [⟨Level.warning, t⟩] := rfl

@[simp]
theorem St.msgs_err (s : St) (t : String) :
    (s.err t).msgs = s.msgs ++ [⟨Level.error, t⟩] := rfl

@[simp]
theorem St.msgs_req (s : St) (r : Req) : (s.req r).msgs = s.msgs := rfl

@[simp]
theorem St.reqs_info (s : St) (t : String) : (s.info t).reqs = s.reqs := rfl

@[simp]
theorem St.reqs_warn (s : St) (t : String) : (s.warn t).reqs = s.reqs := rfl

@[simp]
theorem St.reqs_err (s : St) (t : String) : (s.err t).reqs = s.reqs := rfl

@[simp]
theorem St.reqs_req (s : St) (r : Req) : (s.req r).reqs = s.reqs ++ [r] := rfl

@[simp]
theorem Flow.exitCode_cont (s : St) : (Flow.cont s).exitCode = 0 := rfl

@[simp]
theorem Flow.exitCode_exited (c : Nat) (s : St) : (Flow.exited c s).exitCode = c := rfl

@[simp]
theorem Flow.st_cont (s : St) : (Flow.cont s).st = s := rfl

@[simp]
theorem Flow.st_exited (c : Nat) (s : St) : (Flow.exited c s).st = s := rfl

@[simp]
theorem andThen_cont (s : St) (g : St → Flow) : andThen (Flow.cont s) g = g s := rfl

@[simp]
theorem andThen_exited (c : Nat) (s : St) (g : St → Flow) :
    andThen (Flow.exited c s) g = Flow.exited c s := rfl

@[simp]
theorem withDone_cont (t : String) (s : St) :
    withDone t (Flow.cont s) = Flow.cont (s.info t) := rfl

@[simp]
theorem withDone_exited (t : String) (c : Nat) (s : St) :
    withDone t (Flow.exited c s) = Flow.exited c s := rfl

/-! Facts about the substring classifier applied to the modelled control
plane response texts. -/

theorem strHas_noUpdates_marker :
    strHas noUpdatesErrText "No updates are to be performed" = true := by decide

theorem strHas_busy_marker :
    strHas stackBusyErrText "No updates are to be performed" = false := by decide

theorem strHas_busy_error : strHas stackBusyErrText "error" = true := by decide

theorem strHas_accepted_marker :
    strHas updateAcceptedText "No updates are to be performed" = false := by decide

theorem strHas_accepted_error : strHas updateAcceptedText "error" = false := by decide

/-! Concrete environments used by witnesses and counterexamples. -/

/-- The stack outputs of the spec's end-to-end scenario. -/
def prodOuts : Outputs :=
  ⟨"production-cluster", "production-backend-svc", "production-frontend-svc", "alb.example.com"⟩

/-- A fully healthy environment with no stack provisioned yet. -/
def baseEnv : Env :=
  { awsInstalled := true
    dockerInstalled := true
    databasePassword := "pw"
    environmentName := "production"
    awsRegion := "us-east-1"
    accountIdPreset := some "123"
    stsOk := true
    stsAccountId := "123"
    ecrLoginOk := true
    dockerStepsOk := true
    plane := ⟨none, []⟩
    templateOuts := prodOuts
    backendServiceAccepted := true
    frontendServiceAccepted := true
    healthFrontendOk := true
    healthBackendOk := true }

/-- A stack already converged with exactly the parameters the script would
submit. -/
def completeStack : Stack :=
  ⟨StackStatus.updateComplete, baseEnv.effectiveParams, prodOuts⟩

/-- A stack caught mid-update. -/
def busyStack : Stack :=
  ⟨StackStatus.updating, baseEnv.effectiveParams, prodOuts⟩

/-- A stack in a failed terminal state. -/
def failedStack : Stack :=
  ⟨StackStatus.updateFailed, baseEnv.effectiveParams, prodOuts⟩

/-- `baseEnv` with the stack already converged. -/
def envConverged : Env :=
  { baseEnv with plane := ⟨some completeStack, ["blog-backend", "blog-frontend"]⟩ }

/-- `baseEnv` with the stack caught mid-update. -/
def envBusy : Env :=
  { baseEnv with plane := ⟨some busyStack, ["blog-backend", "blog-frontend"]⟩ }

/-- `baseEnv` with the stack in a failed state. -/
def envFailedStack : Env :=
  { baseEnv with plane := ⟨some failedStack, ["blog-backend", "blog-frontend"]⟩ }

/-- `envConverged` with both health endpoints unhealthy. -/
def envHealthFail : Env :=
  { envConverged with healthFrontendOk := false, healthBackendOk := false }

/-- `envConverged` with the frontend replacement request rejected. -/
def envPartialRollout : Env :=
  { envConverged with frontendServiceAccepted := false }

/-- A control plane double that always answers the update submission with a
fixed response text and mutates nothing. -/
def constResp (t : String) : PlaneState → Params → String × PlaneState :=
  fun ps _ => (t, ps)

/-- An error response whose text carries neither the "no updates" marker nor
the lowercase substring "error" (a realistic connectivity failure text). -/
def oddErrText : String := "Could not connect to the endpoint URL"

/-! Stage lemmas: the behaviour of each script function under the
hypotheses the claims quantify over. -/

/-- A repository-ensure step never touches the stack. -/
@[simp]
theorem ensureRepo_stack (n : String) (s : St) :
    (ensureRepo n s).plane.stack = s.plane.stack := by
  simp only [ensureRepo]
  split <;> rfl

/-- A repository-ensure step prints nothing. -/
@[simp]
theorem ensureRepo_msgs (n : String) (s : St) : (ensureRepo n s).msgs = s.msgs := by
  simp only [ensureRepo]
  split <;> rfl

/-- With both tools installed, the credential set, and the account id
preset, the prerequisite check passes, printing its two status lines. -/
theorem check_prerequisites_ok (e : Env) (s : St) (a : String)
    (hA : e.awsInstalled = true) (hD : e.dockerInstalled = true)
    (hP : ¬ e.databasePassword = "") (hacc : e.accountIdPreset = some a) :
    check_prerequisites e s =
      Flow.cont ((s.info "Checking prerequisites...").info "Prerequisites check passed.") := by
  unfold check_prerequisites
  simp [hA, hD, hP, hacc]

/-- When a prerequisite is missing, the prerequisite check exits 1 without
issuing any request. -/
theorem check_prerequisites_missing (e : Env) (s : St)
    (hmiss : e.awsInstalled = false ∨ e.dockerInstalled = false ∨ e.databasePassword = "") :
    ∃ s', check_prerequisites e s = Flow.exited 1 s' ∧ s'.reqs = s.reqs := by
  unfold check_prerequisites
  rcases hmiss with h | h | h
  · simp [h]
  · cases hA : e.awsInstalled <;> simp [h]
  · cases hA : e.awsInstalled <;> cases hD : e.dockerInstalled <;> simp [h]

/-- With registry login and all docker steps succeeding, the build stage
completes and leaves the stack untouched. -/
theorem build_and_push_ok (e : Env) (s : St)
    (hL : e.ecrLoginOk = true) (hDk : e.dockerStepsOk = true) :
    ∃ s', build_and_push_images e s = Flow.cont s' ∧ s'.plane.stack = s.plane.stack := by
  unfold build_and_push_images
  simp [hL, hDk]

/-- When the stack is absent or in a terminal complete state, the
convergence stage completes, leaving a stack in place. -/
theorem deploy_infrastructure_ok (e : Env) (s : St)
    (hconv : s.plane.stack = none ∨
      ∃ st, s.plane.stack = some st ∧ st.status.isComplete = true) :
    ∃ s' st', deploy_infrastructure e s = Flow.cont s' ∧ s'.plane.stack = some st' := by
  unfold deploy_infrastructure deploy_infrastructure_with
  rcases hconv with h | ⟨st, h, hc⟩
  · simp [h, awsWaitCreate]
  · by_cases hp : st.params = e.effectiveParams
    · simp [h, awsUpdateStack, hc, hp, strHas_noUpdates_marker]
    · simp [h, awsUpdateStack, hc, hp, strHas_accepted_marker, strHas_accepted_error,
        awsWaitUpdate]

/-- The no-changes outcome of the convergence stage, in explicit form: with
the stack converged and the parameter set identical, the update submission
is classified as "no updates", the stage continues, and the plane is
untouched. -/
theorem deploy_infrastructure_no_changes (e : Env) (s : St) (st : Stack)
    (hst : s.plane.stack = some st) (hc : st.status.isComplete = true)
    (hp : st.params = e.effectiveParams) :
    deploy_infrastructure e s =
      Flow.cont (((((((s.info "Deploying infrastructure using CloudFormation...").req
          Req.describeStacks).info "Stack exists. Updating...").req
          (Req.updateStack e.effectiveParams)).info
          "No updates are to be performed on the stack.")).info
          "Infrastructure deployment completed.") := by
  unfold deploy_infrastructure deploy_infrastructure_with
  simp [hst, awsUpdateStack, hc, hp, strHas_noUpdates_marker, St.info, St.req]

/-- With the stack present and both replacement requests accepted, the
rollout stage completes without touching the plane. -/
theorem deploy_application_ok (e : Env) (s : St) (st : Stack)
    (h : s.plane.stack = some st)
    (hB : e.backendServiceAccepted = true) (hF : e.frontendServiceAccepted = true) :
    ∃ s', deploy_application e s = Flow.cont s' ∧ s'.plane = s.plane := by
  unfold deploy_application
  simp [h, hB, hF]

/-- With the stack present, the health stage always continues, issues
exactly one probe per health path after the single fixed delay, and prints
a warning for each failing probe. -/
theorem run_health_checks_probes (e : Env) (s : St) (st : Stack)
    (h : s.plane.stack = some st) :
    ∃ s', run_health_checks e s = Flow.cont s' ∧ s'.plane = s.plane ∧
      s'.reqs = s.reqs ++ [Req.describeStacks, Req.sleepSec 120,
        Req.curlGet ("http://" ++ st.outs.albDnsName ++ "/health"),
        Req.curlGet ("http://" ++ st.outs.albDnsName ++ "/api/health")] ∧
      (e.healthFrontendOk = false →
        Msg.mk Level.warning
          "Frontend health check failed. The application might still be starting up." ∈ s'.msgs) ∧
      (e.healthBackendOk = false →
        Msg.mk Level.warning
          "Backend health check failed. The API might still be starting up." ∈ s'.msgs) := by
  unfold run_health_checks
  cases hf : e.healthFrontendOk <;> cases hb : e.healthBackendOk <;> simp [h]

/-- With the stack present, the info stage completes, preserving every
message printed so far. -/
theorem get_deployment_info_ok (e : Env) (s : St) (st : Stack)
    (h : s.plane.stack = some st) :
    ∃ s', get_deployment_info e s = Flow.cont s' ∧ ∀ m ∈ s.msgs, m ∈ s'.msgs := by
  unfold get_deployment_info
  simp only [St.plane_info, St.plane_req, h]
  exact ⟨_, rfl, fun m hm => by simp [hm]⟩

/-! Dispatch equations: what each subcommand runs. -/

theorem runScript_deploy (e : Env) : runScript (some "deploy") e = main e (St.init e) := rfl

theorem runScript_none (e : Env) : runScript none e = main e (St.init e) := rfl

theorem runScript_build (e : Env) :
    runScript (some "build") e =
      andThen (check_prerequisites e (St.init e)) (build_and_push_images e) := rfl

theorem runScript_infra (e : Env) :
    runScript (some "infrastructure") e =
      andThen (check_prerequisites e (St.init e)) (deploy_infrastructure e) := rfl

theorem runScript_application (e : Env) :
    runScript (some "application") e =
      andThen (check_prerequisites e (St.init e)) (deploy_application e) := rfl

/-- Whether `b` equals the head element decides cons containment. -/
theorem contains_cons_ne (l : List String) (a b : String) (h : (b == a) = false) :
    (a :: l).contains b = l.contains b := by
  simp [List.contains, List.elem, h]

theorem contains_cons_self (l : List String) (a b : String) (h : (b == a) = true) :
    (a :: l).contains b = true := by
  simp [List.contains, List.elem, h]

/-! The claims. -/

/-- C1: re-running the stack convergence stage against a stack already in a
`*-complete` state with an identical parameter set is a safe no-op: the
update submission yields the "no changes" outcome, which is treated as
success (the stage continues, exit code 0), the control-plane state is not
mutated, and a second identical run behaves the same way. -/
theorem spec_c1 (e : Env) (s : St) (st : Stack)
    (hst : s.plane.stack = some st) (hc : st.status.isComplete = true)
    (hp : st.params = e.effectiveParams) :
    ∃ s2, deploy_infrastructure e s = Flow.cont s2 ∧
      (deploy_infrastructure e s).exitCode = 0 ∧
      s2.plane = s.plane ∧
      Msg.mk Level.info "No updates are to be performed on the stack." ∈ s2.msgs ∧
      ∃ s3, deploy_infrastructure e s2 = Flow.cont s3 ∧
        (deploy_infrastructure e s2).exitCode = 0 ∧
        s3.plane = s2.plane ∧
        Msg.mk Level.info "No updates are to be performed on the stack." ∈ s3.msgs := by
  have h1 := deploy_infrastructure_no_changes e s st hst hc hp
  refine ⟨_, h1, by rw [h1]; rfl, by simp, by simp, ?_⟩
  have hst2 : ((((((s.info "Deploying infrastructure using CloudFormation...").req
      Req.describeStacks).info "Stack exists. Updating...").req
      (Req.updateStack e.effectiveParams)).info
      "No updates are to be performed on the stack.").info
      "Infrastructure deployment completed.").plane.stack = some st := by simp [hst]
  have h2 := deploy_infrastructure_no_changes e _ st hst2 hc hp
  exact ⟨_, h2, by rw [h2]; rfl, by simp, by simp⟩

/-- C1 witness: the no-op re-run at a concrete converged environment. -/
theorem spec_c1_witness :
    ∃ s2, deploy_infrastructure envConverged (St.init envConverged) = Flow.cont s2 ∧
      (deploy_infrastructure envConverged (St.init envConverged)).exitCode = 0 ∧
      s2.plane = (St.init envConverged).plane ∧
      Msg.mk Level.info "No updates are to be performed on the stack." ∈ s2.msgs ∧
      ∃ s3, deploy_infrastructure envConverged s2 = Flow.cont s3 ∧
        (deploy_infrastructure envConverged s2).exitCode = 0 ∧
        s3.plane = s2.plane ∧
        Msg.mk Level.info "No updates are to be performed on the stack." ∈ s3.msgs :=
  spec_c1 envConverged (St.init envConverged) completeStack rfl rfl rfl

/-- C2 counterexample: with the stack observed in the `updating` state, the
convergence stage still issues an update-stack request to the control
plane, contradicting the claim that no create-stack or update-stack
request is issued. -/
theorem spec_c2_counterexample :
    envBusy.plane.stack = some busyStack ∧
    busyStack.status = StackStatus.updating ∧
    busyStack.status.isComplete = false ∧
    Req.updateStack envBusy.effectiveParams ∈
      (deploy_infrastructure envBusy (St.init envBusy)).st.reqs := by decide

/-- C2 (amended): when the target stack exists but is not in a `*-complete`
state, the script has no StackBusy classification: it still issues an
update-stack request, and the control plane's rejection text (which
contains "error") is then caught by the generic error branch, so the run
aborts with exit code 1. -/
theorem spec_c2 (e : Env) (s : St) (st : Stack)
    (hst : s.plane.stack = some st) (hc : st.status.isComplete = false) :
    ∃ s', deploy_infrastructure e s = Flow.exited 1 s' ∧
      (deploy_infrastructure e s).exitCode ≠ 0 ∧
      Req.updateStack e.effectiveParams ∈ s'.reqs := by
  unfold deploy_infrastructure deploy_infrastructure_with
  simp [hst, awsUpdateStack, hc, strHas_busy_marker, strHas_busy_error]

/-- C2 witness: the amended behaviour at a concrete mid-update stack. -/
theorem spec_c2_witness :
    ∃ s', deploy_infrastructure envBusy (St.init envBusy) = Flow.exited 1 s' ∧
      (deploy_infrastructure envBusy (St.init envBusy)).exitCode ≠ 0 ∧
      Req.updateStack envBusy.effectiveParams ∈ s'.reqs :=
  spec_c2 envBusy (St.init envBusy) busyStack rfl rfl

/-- C3 counterexample: `oddErrText` is an error response containing neither
the "no updates" marker nor the substring "error"; contrary to the claim
that every non-marker error aborts the run, the stage falls through to the
update wait and the run exits 0. -/
theorem spec_c3_counterexample :
    strHas oddErrText "No updates are to be performed" = false ∧
    strHas oddErrText "error" = false ∧
    (deploy_infrastructure_with (constResp oddErrText) envConverged
      (St.init envConverged)).exitCode = 0 ∧
    Req.waitUpdate ∈
      (deploy_infrastructure_with (constResp oddErrText) envConverged
        (St.init envConverged)).st.reqs := by decide

/-- C3 (amended): the classification of an update response is three-way, not
two-way: a response containing the "no updates" marker is treated as
success; a response without the marker but containing "error" aborts with
exit 1; any other response text escapes both branches and falls through to
the update wait instead of being classified as a failure. -/
theorem spec_c3 (e : Env) (s : St) (st : Stack) (t : String)
    (hst : s.plane.stack = some st) :
    (strHas t "No updates are to be performed" = true →
      ∃ s', deploy_infrastructure_with (constResp t) e s = Flow.cont s' ∧
        s'.reqs = s.reqs ++ [Req.describeStacks, Req.updateStack e.effectiveParams]) ∧
    (strHas t "No updates are to be performed" = false → strHas t "error" = true →
      ∃ s', deploy_infrastructure_with (constResp t) e s = Flow.exited 1 s' ∧
        s'.reqs = s.reqs ++ [Req.describeStacks, Req.updateStack e.effectiveParams]) ∧
    (strHas t "No updates are to be performed" = false → strHas t "error" = false →
      (deploy_infrastructure_with (constResp t) e s).st.reqs =
        s.reqs ++ [Req.describeStacks, Req.updateStack e.effectiveParams, Req.waitUpdate]) := by
  refine ⟨fun h1 => ?_, fun h1 h2 => ?_, fun h1 h2 => ?_⟩
  · unfold deploy_infrastructure_with
    simp [hst, constResp, h1]
  · unfold deploy_infrastructure_with
    simp [hst, constResp, h1, h2]
  · unfold deploy_infrastructure_with
    simp [hst, constResp, h1, h2]
    split <;> simp

/-- C3 witness: the middle branch at the concrete busy-rejection text. -/
theorem spec_c3_witness :
    ∃ s', deploy_infrastructure_with (constResp stackBusyErrText) envConverged
        (St.init envConverged) = Flow.exited 1 s' ∧
      s'.reqs = (St.init envConverged).reqs ++
        [Req.describeStacks, Req.updateStack envConverged.effectiveParams] :=
  (spec_c3 envConverged (St.init envConverged) completeStack stackBusyErrText rfl).2.1
    strHas_busy_marker strHas_busy_error

/-- C5 counterexample: with the backend replacement request accepted and the
frontend one rejected, the process does exit non-zero, but no partial
failure naming the failed service is reported: the rollout stage prints
only its opening status line, and the whole `application` run prints no
error-level message at all. -/
theorem spec_c5_counterexample :
    envPartialRollout.backendServiceAccepted = true ∧
    envPartialRollout.frontendServiceAccepted = false ∧
    (runScript (some "application") envPartialRollout).exitCode ≠ 0 ∧
    (deploy_application envPartialRollout (St.init envPartialRollout)).st.msgs =
      [⟨Level.info, "Deploying application..."⟩] ∧
    ((runScript (some "application") envPartialRollout).st.msgs.filter
      (fun m => m.level == Level.error)) = [] := by decide

/-- C5 (amended): when the backend replacement request is accepted and the
frontend one rejected, the script aborts immediately under `set -e` with a
non-zero exit code; both requests were issued, but the script emits no
partial-failure report — the only rollout-stage message is the opening
status line. -/
theorem spec_c5 (e : Env) (s : St) (st : Stack)
    (hst : s.plane.stack = some st)
    (hB : e.backendServiceAccepted = true) (hF : e.frontendServiceAccepted = false) :
    ∃ s', deploy_application e s = Flow.exited 1 s' ∧
      (deploy_application e s).exitCode ≠ 0 ∧
      s'.reqs = s.reqs ++ [Req.describeStacks, Req.describeStacks, Req.describeStacks,
        Req.updateService st.outs.clusterName st.outs.backendServiceName,
        Req.updateService st.outs.clusterName st.outs.frontendServiceName] ∧
      s'.msgs = s.msgs ++ [⟨Level.info, "Deploying application..."⟩] := by
  unfold deploy_application
  simp [hst, hB, hF]

/-- C5 witness: the amended behaviour at the concrete partial-rollout
environment. -/
theorem spec_c5_witness :
    ∃ s', deploy_application envPartialRollout (St.init envPartialRollout) =
        Flow.exited 1 s' ∧
      (deploy_application envPartialRollout (St.init envPartialRollout)).exitCode ≠ 0 ∧
      s'.reqs = (St.init envPartialRollout).reqs ++
        [Req.describeStacks, Req.describeStacks, Req.describeStacks,
          Req.updateService completeStack.outs.clusterName completeStack.outs.backendServiceName,
          Req.updateService completeStack.outs.clusterName completeStack.outs.frontendServiceName] ∧
      s'.msgs = (St.init envPartialRollout).msgs ++
        [⟨Level.info, "Deploying application..."⟩] :=
  spec_c5 envPartialRollout (St.init envPartialRollout) completeStack rfl rfl rfl

/-- C6 counterexample: the standalone `application` subcommand, run against a
stack in the `update-failed` state, still issues both replacement
requests, contradicting the claim that the Rollout Driver never acts on a
stack observed in a failed or in-progress state. -/
theorem spec_c6_counterexample :
    envFailedStack.plane.stack = some failedStack ∧
    failedStack.status = StackStatus.updateFailed ∧
    failedStack.status.isComplete = false ∧
    Req.updateService "production-cluster" "production-backend-svc" ∈
      (runScript (some "application") envFailedStack).st.reqs ∧
    Req.updateService "production-cluster" "production-frontend-svc" ∈
      (runScript (some "application") envFailedStack).st.reqs := by decide

/-- C6 (amended): the rollout stage performs no stack-state check: whenever
the prerequisites pass and the stack exists — in any state, including
failed and in-progress ones — the standalone `application` subcommand
issues the backend replacement request built from that stack's outputs,
and the frontend one as well when the backend request is accepted. -/
theorem spec_c6 (e : Env) (a : String) (st : Stack)
    (hA : e.awsInstalled = true) (hD : e.dockerInstalled = true)
    (hP : ¬ e.databasePassword = "") (hacc : e.accountIdPreset = some a)
    (hst : e.plane.stack = some st) :
    Req.updateService st.outs.clusterName st.outs.backendServiceName ∈
      (runScript (some "application") e).st.reqs ∧
    (e.backendServiceAccepted = true →
      Req.updateService st.outs.clusterName st.outs.frontendServiceName ∈
        (runScript (some "application") e).st.reqs) := by
  have hpre := check_prerequisites_ok e (St.init e) a hA hD hP hacc
  rw [runScript_application, hpre, andThen_cont]
  unfold deploy_application
  have hst0 : (St.init e).plane.stack = some st := hst
  simp only [St.plane_info, St.plane_req, hst0]
  cases hb : e.backendServiceAccepted <;> cases hf : e.frontendServiceAccepted <;> simp [hb, hf]

/-- C6 witness: the amended behaviour at the concrete failed-stack
environment. -/
theorem spec_c6_witness :
    Req.updateService failedStack.outs.clusterName failedStack.outs.backendServiceName ∈
      (runScript (some "application") envFailedStack).st.reqs ∧
    (envFailedStack.backendServiceAccepted = true →
      Req.updateService failedStack.outs.clusterName failedStack.outs.frontendServiceName ∈
        (runScript (some "application") envFailedStack).st.reqs) :=
  spec_c6 envFailedStack "123" failedStack rfl rfl (by decide) rfl rfl

/-- C7 counterexample: with both health endpooints failing, each health path
still receives exactly one probe — a failing attempt is never retried, so
the claimed retry-up-to-budget behaviour does not exist in the code. -/
theorem spec_c7_counterexample :
    envHealthFail.healthFrontendOk = false ∧
    envHealthFail.healthBackendOk = false ∧
    ((run_health_checks envHealthFail (St.init envHealthFail)).st.reqs.filter
      (fun r => r == Req.curlGet "http://alb.example.com/health")).length = 1 ∧
    ((run_health_checks envHealthFail (St.init envHealthFail)).st.reqs.filter
      (fun r => r == Req.curlGet "http://alb.example.com/api/health")).length = 1 ∧
    ¬ 2 ≤ ((run_health_checks envHealthFail (St.init envHealthFail)).st.reqs.filter
      (fun r => r == Req.curlGet "http://alb.example.com/health")).length := by decide

/-- C7 (amended): the Health Verifier makes exactly one attempt per health
path, after a single fixed 120-second delay, regardless of the probes'
outcomes; it never retries and never blocks unboundedly (its request trace
is exactly the describe call, the one sleep, and the two probes). -/
theorem spec_c7 (e : Env) (s : St) (st : Stack) (hst : s.plane.stack = some st) :
    (run_health_checks e s).exitCode = 0 ∧
    ∃ s', run_health_checks e s = Flow.cont s' ∧
      s'.reqs = s.reqs ++ [Req.describeStacks, Req.sleepSec 120,
        Req.curlGet ("http://" ++ st.outs.albDnsName ++ "/health"),
        Req.curlGet ("http://" ++ st.outs.albDnsName ++ "/api/health")] := by
  obtain ⟨s', h1, _, h3, _, _⟩ := run_health_checks_probes e s st hst
  exact ⟨by rw [h1]; rfl, s', h1, h3⟩

/-- C7 witness: the single-probe trace at the concrete failing-health
environment. -/
theorem spec_c7_witness :
    (run_health_checks envHealthFail (St.init envHealthFail)).exitCode = 0 ∧
    ∃ s', run_health_checks envHealthFail (St.init envHealthFail) = Flow.cont s' ∧
      s'.reqs = (St.init envHealthFail).reqs ++ [Req.describeStacks, Req.sleepSec 120,
        Req.curlGet ("http://" ++ completeStack.outs.albDnsName ++ "/health"),
        Req.curlGet ("http://" ++ completeStack.outs.albDnsName ++ "/api/health")] :=
  spec_c7 envHealthFail (St.init envHealthFail) completeStack rfl

/-- `baseEnv` with the database credential missing. -/
def envNoPassword : Env := { baseEnv with databasePassword := "" }

/-- C8: for every subcommand that mutates external state, a missing tool or
credential makes the run exit non-zero during the prerequisite check,
before any request at all — in particular before any build, push,
create-stack, update-stack or update-service request — is issued. -/
theorem spec_c8 (e : Env) (arg : String)
    (harg : arg = "deploy" ∨ arg = "build" ∨ arg = "infrastructure" ∨ arg = "application")
    (hmiss : e.awsInstalled = false ∨ e.dockerInstalled = false ∨ e.databasePassword = "") :
    (runScript (some arg) e).exitCode ≠ 0 ∧
    (runScript (some arg) e).st.reqs = [] := by
  rcases harg with h | h | h | h <;> subst h
  · obtain ⟨s', h1, h2⟩ :=
      check_prerequisites_missing e ((St.init e).info "Starting deployment process...") hmiss
    rw [runScript_deploy]
    unfold main
    rw [h1]
    simp [h2, St.init]
  · obtain ⟨s', h1, h2⟩ := check_prerequisites_missing e (St.init e) hmiss
    rw [runScript_build, h1]
    simp [h2, St.init]
  · obtain ⟨s', h1, h2⟩ := check_prerequisites_missing e (St.init e) hmiss
    rw [runScript_infra, h1]
    simp [h2, St.init]
  · obtain ⟨s', h1, h2⟩ := check_prerequisites_missing e (St.init e) hmiss
    rw [runScript_application, h1]
    simp [h2, St.init]

/-- C8 witness: a full deploy with the database credential unset exits
non-zero having issued no request. -/
theorem spec_c8_witness :
    (runScript (some "deploy") envNoPassword).exitCode ≠ 0 ∧
    (runScript (some "deploy") envNoPassword).st.reqs = [] :=
  spec_c8 envNoPassword "deploy" (Or.inl rfl) (Or.inr (Or.inr rfl))

/-- C9: invoking the orchestrator with no subcommand argument is the same
run as invoking it with `deploy`, and that default run is the full
pipeline: at a concrete healthy environment it exits 0 having printed the
header of every stage — prerequisites, build, infrastructure, application
rollout, health checks, and deployment info. -/
theorem spec_c9 :
    (∀ e : Env, runScript none e = runScript (some "deploy") e) ∧
    (runScript none baseEnv).exitCode = 0 ∧
    Msg.mk Level.info "Checking prerequisites..." ∈ (runScript none baseEnv).st.msgs ∧
    Msg.mk Level.info "Building and pushing Docker images..." ∈ (runScript none baseEnv).st.msgs ∧
    Msg.mk Level.info "Deploying infrastructure using CloudFormation..." ∈
      (runScript none baseEnv).st.msgs ∧
    Msg.mk Level.info "Deploying application..." ∈ (runScript none baseEnv).st.msgs ∧
    Msg.mk Level.info "Running health checks..." ∈ (runScript none baseEnv).st.msgs ∧
    Msg.mk Level.info "Getting deployment information..." ∈ (runScript none baseEnv).st.msgs :=
  And.intro (fun _ => rfl) (by decide)

/-- C10: the build stage creates each of the two registry repositories on
demand when absent (and the repository then exists), leaves an existing
repository as is (no create request), and completes either way — it never
fails because a target repository is absent. -/
theorem spec_c10 (e : Env) (s : St)
    (hL : e.ecrLoginOk = true) (hDk : e.dockerStepsOk = true) (hs : s.reqs = []) :
    ∃ s', build_and_push_images e s = Flow.cont s' ∧
      (build_and_push_images e s).exitCode = 0 ∧
      ("blog-backend" ∉ s.plane.repos →
        Req.createRepo "blog-backend" ∈ s'.reqs ∧
        "blog-backend" ∈ s'.plane.repos) ∧
      ("blog-backend" ∈ s.plane.repos →
        Req.createRepo "blog-backend" ∉ s'.reqs ∧
        "blog-backend" ∈ s'.plane.repos) ∧
      ("blog-frontend" ∉ s.plane.repos →
        Req.createRepo "blog-frontend" ∈ s'.reqs ∧
        "blog-frontend" ∈ s'.plane.repos) ∧
      ("blog-frontend" ∈ s.plane.repos →
        Req.createRepo "blog-frontend" ∉ s'.reqs ∧
        "blog-frontend" ∈ s'.plane.repos) := by
  have hne : ¬ (("blog-frontend" : String) = "blog-backend") := by decide
  have hne' : ¬ (("blog-backend" : String) = "blog-frontend") := by decide
  unfold build_and_push_images ensureRepo
  by_cases hb : "blog-backend" ∈ s.plane.repos <;>
    by_cases hf : "blog-frontend" ∈ s.plane.repos <;>
      simp [hL, hDk, hs, hb, hf, hne, hne']

/-- C10 witness: starting with an empty registry, both repositories are
created and the stage completes. -/
theorem spec_c10_witness :
    ∃ s', build_and_push_images baseEnv (St.init baseEnv) = Flow.cont s' ∧
      (build_and_push_images baseEnv (St.init baseEnv)).exitCode = 0 ∧
      ("blog-backend" ∉ (St.init baseEnv).plane.repos →
        Req.createRepo "blog-backend" ∈ s'.reqs ∧
        "blog-backend" ∈ s'.plane.repos) ∧
      ("blog-backend" ∈ (St.init baseEnv).plane.repos →
        Req.createRepo "blog-backend" ∉ s'.reqs ∧
        "blog-backend" ∈ s'.plane.repos) ∧
      ("blog-frontend" ∉ (St.init baseEnv).plane.repos →
        Req.createRepo "blog-frontend" ∈ s'.reqs ∧
        "blog-frontend" ∈ s'.plane.repos) ∧
      ("blog-frontend" ∈ (St.init baseEnv).plane.repos →
        Req.createRepo "blog-frontend" ∉ s'.reqs ∧
        "blog-frontend" ∈ s'.plane.repos) :=
  spec_c10 baseEnv (St.init baseEnv) rfl rfl rfl

/-- C4: in a full deploy whose build, convergence and both rollout requests
succeed, every combination of health-check outcomes leaves the exit code
at 0, and each failing health check contributes only a warning message —
health outcomes never change the exit code. -/
theorem spec_c4 (e : Env) (a : String) (b1 b2 : Bool)
    (hA : e.awsInstalled = true) (hD : e.dockerInstalled = true)
    (hP : ¬ e.databasePassword = "") (hacc : e.accountIdPreset = some a)
    (hL : e.ecrLoginOk = true) (hDk : e.dockerStepsOk = true)
    (hconv : e.plane.stack = none ∨
      ∃ st, e.plane.stack = some st ∧ st.status.isComplete = true)
    (hB : e.backendServiceAccepted = true) (hF : e.frontendServiceAccepted = true) :
    (runScript (some "deploy")
      { e with healthFrontendOk := b1, healthBackendOk := b2 }).exitCode = 0 ∧
    (b1 = false →
      Msg.mk Level.warning
          "Frontend health check failed. The application might still be starting up." ∈
        (runScript (some "deploy")
          { e with healthFrontendOk := b1, healthBackendOk := b2 }).st.msgs) ∧
    (b2 = false →
      Msg.mk Level.warning
          "Backend health check failed. The API might still be starting up." ∈
        (runScript (some "deploy")
          { e with healthFrontendOk := b1, healthBackendOk := b2 }).st.msgs) := by
  have hpre := check_prerequisites_ok { e with healthFrontendOk := b1, healthBackendOk := b2 }
    ((St.init { e with healthFrontendOk := b1, healthBackendOk := b2 }).info
      "Starting deployment process...") a hA hD hP hacc
  obtain ⟨s2, hb, hb2⟩ := build_and_push_ok
    { e with healthFrontendOk := b1, healthBackendOk := b2 }
    ((((St.init { e with healthFrontendOk := b1, healthBackendOk := b2 }).info
        "Starting deployment process...").info "Checking prerequisites...").info
        "Prerequisites check passed.") hL hDk
  have hconv2 : s2.plane.stack = none ∨
      ∃ st, s2.plane.stack = some st ∧ st.status.isComplete = true := by
    rw [hb2]
    simp only [St.plane_info, St.init]
    exact hconv
  obtain ⟨s3, st3, hi, hi2⟩ := deploy_infrastructure_ok
    { e with healthFrontendOk := b1, healthBackendOk := b2 } s2 hconv2
  obtain ⟨s4, ha, ha2⟩ := deploy_application_ok
    { e with healthFrontendOk := b1, healthBackendOk := b2 } s3 st3 hi2 hB hF
  have hst4 : s4.plane.stack = some st3 := by rw [ha2, hi2]
  obtain ⟨s5, hh, hh2, hh3, hw1, hw2⟩ := run_health_checks_probes
    { e with healthFrontendOk := b1, healthBackendOk := b2 } s4 st3 hst4
  have hst5 : s5.plane.stack = some st3 := by rw [hh2, ha2, hi2]
  obtain ⟨s6, hg, hg2⟩ := get_deployment_info_ok
    { e with healthFrontendOk := b1, healthBackendOk := b2 } s5 st3 hst5
  rw [runScript_deploy]
  unfold main
  rw [hpre, andThen_cont, hb, andThen_cont, hi, andThen_cont, ha, andThen_cont,
    hh, andThen_cont, hg, withDone_cont]
  refine ⟨rfl, fun h1 => ?_, fun h2 => ?_⟩
  · have := hg2 _ (hw1 h1)
    simp [this]
  · have := hg2 _ (hw2 h2)
    simp [this]

/-- C4 witness: a concrete full deploy with both health checks failing still
exits 0 and prints both warnings. -/
theorem spec_c4_witness :
    (runScript (some "deploy")
      { baseEnv with healthFrontendOk := false, healthBackendOk := false }).exitCode = 0 ∧
    (false = false →
      Msg.mk Level.warning
          "Frontend health check failed. The application might still be starting up." ∈
        (runScript (some "deploy")
          { baseEnv with healthFrontendOk := false, healthBackendOk := false }).st.msgs) ∧
    (false = false →
      Msg.mk Level.warning
          "Backend health check failed. The API might still be starting up." ∈
        (runScript (some "deploy")
          { baseEnv with healthFrontendOk := false, healthBackendOk := false }).st.msgs) :=
  spec_c4 baseEnv "123" false false rfl rfl (by decide) rfl rfl rfl (Or.inl rfl) rfl rfl

end Deploy
